import Mathlib

/-!
Verification of the awaits room/worker-pool subsystem.

Source files embedded here:
- src/awaits/shoot.py            (the shoot decorator and its wrapper)
- src/awaits/utils/end_of_wrappers.py  (the generic decorator dispatch helper)
- src/awaits/units/thread_unit.py      (the ThreadUnit worker loop)

The bodies of Task, Room and RoomKeeper are not present under src/; they are
modelled from the spec (sections 3, 4.1, 4.2 and 4.4) and marked as such.

Python values and exceptions are abstracted as natural numbers: success values
of the wrapped callables are drawn from Val, captured errors from Err. A Python
callable becomes a total Lean function returning Except: a normal return is
Except.ok, a raised exception is Except.error.
-/

namespace Awaits

/-- Success values returned by wrapped callables (opaque payloads). -/
abbrev Val := Nat

/-- Errors raised by callables or escaping task execution (opaque payloads). -/
abbrev Err := Nat

/-- Keyword arguments of a call: a mapping with unique keys, modelled as an
association list. -/
abbrev KwArgs := List (String × Val)

/-- A Python callable: positional plus keyword arguments to outcome, where a
normal return is ok and a raised exception is error. -/
abbrev PyFunc := List Val → KwArgs → Except Err Val

/-- Modelled from the spec: the Task body is absent from src/. Spec section 3:
a Task wraps one deferred call (callable, positional arguments, keyword
arguments) plus a completion flag, a result slot and a failure slot. -/
structure Task where
  func : PyFunc
  args : List Val
  kwargs : KwArgs
  completed : Bool
  result : Option Val
  failure : Option Err

/-- Modelled from the spec: Task creation (spec 4.1 create): always succeeds,
starts in the not-completed state with both slots empty. -/
def Task.create (f : PyFunc) (a : List Val) (kw : KwArgs) : Task :=
  { func := f, args := a, kwargs := kw,
    completed := false, result := none, failure := none }

/-- Modelled from the spec: task execution (spec 4.1 run; the source calls the
method do, as in thread_unit.py line 19). Calls the wrapped callable with the
stored arguments; a normal return is stored in the result slot, a raised error
is captured in the failure slot; either way the task is marked completed and
the method itself returns normally. -/
def Task.run (t : Task) : Task :=
  match t.func t.args t.kwargs with
  | Except.ok v => { t with completed := true, result := some v }
  | Except.error e => { t with completed := true, failure := some e }

/-- Modelled from the spec: reading a Task outcome (spec 4.1 await_result).
Returns none while not completed (the reader must wait); once completed it
yields the stored result or re-raises (signals) the stored failure. Reading
does not mutate the task. -/
def Task.awaitResult (t : Task) : Option (Except Err Val) :=
  if t.completed then
    match t.failure with
    | some e => some (Except.error e)
    | none =>
      match t.result with
      | some v => some (Except.ok v)
      | none => none
  else none

/-- A sequence of n successive reads of the same completed task: each read
invokes awaitResult again on the (unmutated) task. -/
def Task.reads (t : Task) : Nat → List (Option (Except Err Val))
  | 0 => []
  | n + 1 => t.awaitResult :: t.reads n

/-- Modelled from the spec: the Room body is absent from src/. Spec section 3:
a Room is a named unit of concurrency with a FIFO queue of pending Tasks (head
of the list is dequeued first). The rid field models Python object identity of
the Room instance (spec 4.4 demands one retained instance per name). -/
structure Room where
  rid : Nat
  name : String
  queue : List Task

/-- Modelled from the spec: Room submission (spec 4.2 submit; the source calls
the method do, as in shoot.py line 13): constructs a Task, appends it to the
tail of the FIFO queue and returns the Task handle immediately. -/
def Room.submit (r : Room) (f : PyFunc) (a : List Val) (kw : KwArgs) :
    Room × Task :=
  let t := Task.create f a kw
  ({ r with queue := r.queue ++ [t] }, t)

/-- Modelled from the spec: the RoomKeeper body is absent from src/. Spec
section 3: a process-wide registry mapping room name to Room, with a counter
supplying fresh instance identities for newly created Rooms. -/
structure RoomKeeper where
  rooms : List (String × Room)
  nextRid : Nat

/-- Modelled from the spec: room resolution (spec 4.4 get_room, reached in the
source as RoomKeeper().room[room_name], shoot.py line 13). If a Room with the
name exists it is returned; otherwise exactly one new Room is created and
registered. The spec requires the check-then-create to be thread-safe, so it
is modelled as one atomic operation. -/
def RoomKeeper.getRoom (k : RoomKeeper) (name : String) : RoomKeeper × Room :=
  match k.rooms.lookup name with
  | some r => (k, r)
  | none =>
    let r : Room := { rid := k.nextRid, name := name, queue := [] }
    ({ rooms := (name, r) :: k.rooms, nextRid := k.nextRid + 1 }, r)

/-- Writes back the (mutated) Room under its name; models that in Python the
registry holds the same Room object that submission mutates in place. -/
def RoomKeeper.setRoom (k : RoomKeeper) (name : String) (r : Room) :
    RoomKeeper :=
  { k with rooms := k.rooms.map (fun p => if p.1 == name then (p.1, r) else p) }

/-- The process-wide mutable state threaded through the embedding: the
RoomKeeper registry plus a counter of Task creations (each Room.submit
constructs exactly one Task, spec 4.2). -/
structure World where
  keeper : RoomKeeper
  tasksCreated : Nat

/-- room_name resolution of the wrapper, shoot.py line 12:
room_name = base if room is None else room. -/
def resolveRoomName : Option String → String
  | none => "base"
  | some s => s

/-- A wrapped function: takes the call arguments and the world, submits a Task
and returns it as the handle. -/
abbrev Wrapped := List Val → KwArgs → World → World × Task

/-- The wrapper produced by shoot for a function func, shoot.py lines 11 to
14: resolve the room name, obtain the Room from the keeper, submit the call to
it and return the Task handle. The tasksCreated counter records the one Task
Room.submit constructs. -/
def shootWrapper (room : Option String) (func : PyFunc) : Wrapped :=
  fun args kwargs w =>
    let room_name := resolveRoomName room
    let kr := w.keeper.getRoom room_name
    let rt := kr.2.submit func args kwargs
    ({ keeper := kr.1.setRoom room_name rt.1,
       tasksCreated := w.tasksCreated + 1 }, rt.2)

/-- A positional argument handed to the decorator: either a plain non-callable
value or a callable. -/
inductive PyArg where
  | value (n : Nat)
  | callable (f : PyFunc)

/-- Python callable() on a decorator argument. -/
def PyArg.isCallable : PyArg → Bool
  | PyArg.value _ => false
  | PyArg.callable _ => true

/-- The decorator-misuse error, awaits.errors.IncorrectUseOfTheDecoratorError
(the spec names it DecoratorUsageError). -/
inductive PyError where
  | incorrectUseOfTheDecorator
  deriving DecidableEq

/-- What a decorator invocation evaluates to when it does not raise: either
the wrapper factory itself (factory usage, no positional arguments) or the
factory already applied to the single callable argument (immediate usage). -/
inductive ShootResult where
  | factory (wow : PyFunc → Wrapped)
  | wrapped (w : Wrapped)

/-- shoot itself, shoot.py lines 8 to 21. The decoration-time code builds
wrapper_of_wrapper and dispatches on the positional arguments: no positional
argument returns the factory; exactly one callable argument returns the
factory applied to it; anything else raises the misuse error. The
decoration-time code performs no RoomKeeper access and creates no Task
(those happen only inside the wrapper, lines 11 to 14), so the world passes
through unchanged in every branch. -/
def shoot (args : List PyArg) (room : Option String) (w : World) :
    World × Except PyError ShootResult :=
  let wrapper_of_wrapper : PyFunc → Wrapped := fun func => shootWrapper room func
  match args with
  | [] => (w, Except.ok (ShootResult.factory wrapper_of_wrapper))
  | [a] =>
    match a with
    | PyArg.callable f => (w, Except.ok (ShootResult.wrapped (wrapper_of_wrapper f)))
    | PyArg.value _ => (w, Except.error PyError.incorrectUseOfTheDecorator)
  | _ => (w, Except.error PyError.incorrectUseOfTheDecorator)

/-- The generic result of decorator dispatch, used to state the equivalence of
the two dispatch implementations: the wrapper returned as a factory, or the
wrapper applied to the single callable argument. -/
inductive Dispatched (α β : Type) where
  | factory (w : α → β)
  | applied (b : β)

/-- end_of_wrappers, src/awaits/utils/end_of_wrappers.py lines 4 to 12: with
no positional arguments return the wrapper; with exactly one callable argument
return the wrapper applied to it; otherwise raise the misuse error. -/
def end_of_wrappers {α β : Type} (isCallable : α → Bool) (args : List α)
    (wrapper : α → β) : Except PyError (Dispatched α β) :=
  match args with
  | [] => Except.ok (Dispatched.factory wrapper)
  | [a] =>
    if isCallable a then Except.ok (Dispatched.applied (wrapper a))
    else Except.error PyError.incorrectUseOfTheDecorator
  | _ => Except.error PyError.incorrectUseOfTheDecorator

/-- The inline dispatch at the end of shoot, shoot.py lines 17 to 21: the same
three-way branch written out inside shoot instead of calling end_of_wrappers. -/
def shootDispatch {α β : Type} (isCallable : α → Bool) (args : List α)
    (wrapper : α → β) : Except PyError (Dispatched α β) :=
  match args with
  | [] => Except.ok (Dispatched.factory wrapper)
  | [a] =>
    if isCallable a then Except.ok (Dispatched.applied (wrapper a))
    else Except.error PyError.incorrectUseOfTheDecorator
  | _ => Except.error PyError.incorrectUseOfTheDecorator

/-- Observable events of one ThreadUnit loop iteration, thread_unit.py lines
17 to 23: a task was obtained from the queue (got), task.do() was invoked
(beganDo), queue.task_done() was called (taskDone), or the except handler
caught an error (swallowed). -/
inductive LoopEvent (τ : Type) where
  | got (t : τ)
  | beganDo (t : τ)
  | taskDone (t : τ)
  | swallowed (e : Err)
  deriving DecidableEq

/-- Whether the loop proceeds to its next iteration or the thread dies. -/
inductive LoopControl where
  | nextIteration
  | crashed (e : Err)
  deriving DecidableEq

/-- The try block of ThreadUnit.run, thread_unit.py lines 18 to 21:
task = self.queue.get(); task.do(); self.queue.task_done(). The loop is
generic in the task type and in doTask, the observable effect of task.do(): ok
with the executed task, or the error it raised. Returns the queue afterwards,
the events that happened, and the error that escaped the block, if any (an
error from task.do() skips task_done). An empty queue makes get block, so
nothing happens. -/
def ThreadUnit.tryBody {τ : Type} (doTask : τ → Except Err τ) :
    List τ → List τ × List (LoopEvent τ) × Option Err
  | [] => ([], [], none)
  | t :: rest =>
    match doTask t with
    | Except.ok _ =>
      (rest, [LoopEvent.got t, LoopEvent.beganDo t, LoopEvent.taskDone t], none)
    | Except.error e =>
      (rest, [LoopEvent.got t, LoopEvent.beganDo t], some e)

/-- One full iteration of the while True loop of ThreadUnit.run, thread
unit.py lines 17 to 23: the try block, then except Exception as e: pass, which
turns any escaped error into a swallowed event and continues the loop. -/
def ThreadUnit.step {τ : Type} (doTask : τ → Except Err τ) (q : List τ) :
    List τ × List (LoopEvent τ) × LoopControl :=
  match ThreadUnit.tryBody doTask q with
  | (q', evs, none) => (q', evs, LoopControl.nextIteration)
  | (q', evs, some e) =>
    (q', evs ++ [LoopEvent.swallowed e], LoopControl.nextIteration)

/-- The ThreadUnit.run loop driven over a queue prefix: iterate the loop body
until the given queue content is drained, collecting the event trace. Each
iteration dequeues exactly the head (queue.get is FIFO). -/
def ThreadUnit.run {τ : Type} (doTask : τ → Except Err τ) :
    List τ → List (LoopEvent τ)
  | [] => []
  | t :: rest =>
    (ThreadUnit.step doTask (t :: rest)).2.1 ++ ThreadUnit.run doTask rest

/-- The sequence of tasks whose execution the worker began, in trace order. -/
def ThreadUnit.startTrace {τ : Type} (doTask : τ → Except Err τ)
    (q : List τ) : List τ :=
  (ThreadUnit.run doTask q).filterMap
    (fun e => match e with | LoopEvent.beganDo t => some t | _ => none)

/-- The effect of task.do() as seen by the worker loop: Task.run captures
errors internally and marks the task completed (spec 4.1), so at the loop
level it returns normally for every task. -/
def Task.loopDo : Task → Except Err Task :=
  fun t => Except.ok t.run

/-- The full pipeline for one call: decorate f with shoot as an immediate
decorator targeting the given room, invoke the wrapped function with the call
arguments to submit the Task, let a worker of the room execute it (thread
unit.py line 19 runs exactly Task.run on the dequeued task), and await the
handle. -/
def shootCallAwait (room : Option String) (f : PyFunc) (a : List Val)
    (kw : KwArgs) (w : World) : Option (Except Err Val) :=
  match shoot [PyArg.callable f] room w with
  | (_, Except.ok (ShootResult.wrapped g)) => (((g a kw w).2).run).awaitResult
  | _ => none

/-- Helper: the start trace of the worker loop is exactly the queue content in
queue order, whatever the outcome of each task execution. -/
theorem ThreadUnit.startTrace_eq {τ : Type} (doTask : τ → Except Err τ)
    (q : List τ) : ThreadUnit.startTrace doTask q = q := by
  induction q with
  | nil => rfl
  | cons t rest ih =>
    unfold ThreadUnit.startTrace at ih ⊢
    unfold ThreadUnit.run ThreadUnit.step ThreadUnit.tryBody
    cases h : doTask t <;> simp_all

/-- C9: for every argument tuple and wrapper, the inline dispatch at the end
of shoot produces the same value, or raises the same error, as end_of_wrappers
applied to that tuple and wrapper. -/
theorem shootDispatch_refines_end_of_wrappers {α β : Type}
    (isCallable : α → Bool) (args : List α) (wrapper : α → β) :
    shootDispatch isCallable args wrapper =
      end_of_wrappers isCallable args wrapper := rfl

/-- C3: a wrapped call with no room specified resolves the name base and is in
every respect identical to a call that names room base explicitly; in
particular both submit to the Room instance (same rid) that the keeper holds
under base. -/
theorem default_room_is_base (f : PyFunc) (a : List Val) (kw : KwArgs)
    (w : World) :
    shootWrapper none f a kw w = shootWrapper (some "base") f a kw w ∧
      (w.keeper.getRoom (resolveRoomName none)).2.rid =
        (w.keeper.getRoom "base").2.rid :=
  ⟨rfl, rfl⟩

/-- C2: a shoot invocation whose positional arguments are more than one, or a
single non-callable, raises IncorrectUseOfTheDecoratorError at decoration time
with the world unchanged: no Room is created or resolved and no Task is
created. -/
theorem shoot_misuse_fails_fast (args : List PyArg) (room : Option String)
    (w : World)
    (h : 2 ≤ args.length ∨ ∃ a, args = [a] ∧ a.isCallable = false) :
    shoot args room w = (w, Except.error PyError.incorrectUseOfTheDecorator) := by
  match args with
  | [] => simp at h
  | [a] =>
    cases a with
    | value n => rfl
    | callable f =>
      rcases h with h | ⟨b, hb, hcall⟩
      · simp at h
      · cases hb; simp [PyArg.isCallable] at hcall
  | a :: b :: rest => rfl

/-- Witness for C2: shoot(1, 2) raises the misuse error and leaves the empty
world untouched. -/
theorem shoot_misuse_fails_fast_witness :
    (2 ≤ ([PyArg.value 1, PyArg.value 2] : List PyArg).length ∨
      ∃ a, ([PyArg.value 1, PyArg.value 2] : List PyArg) = [a] ∧
        a.isCallable = false) ∧
    shoot [PyArg.value 1, PyArg.value 2] none ⟨⟨[], 0⟩, 0⟩ =
      (⟨⟨[], 0⟩, 0⟩, Except.error PyError.incorrectUseOfTheDecorator) :=
  ⟨Or.inl (by decide),
    shoot_misuse_fails_fast [PyArg.value 1, PyArg.value 2] none ⟨⟨[], 0⟩, 0⟩
      (Or.inl (by decide))⟩

/-- C10: in one loop iteration on a dequeued task, queue.task_done() is called
exactly when task.do() returns without raising; when task.do() raises, the
handler is entered instead and task_done is skipped for that task. -/
theorem task_done_iff_do_ok {τ : Type} (doTask : τ → Except Err τ) (t : τ)
    (rest : List τ) :
    LoopEvent.taskDone t ∈ (ThreadUnit.step doTask (t :: rest)).2.1 ↔
      (doTask t).isOk = true := by
  unfold ThreadUnit.step ThreadUnit.tryBody
  cases h : doTask t <;> simp [h, Except.isOk, Except.toBool]

/-- C6: start order is FIFO: for any two tasks t1 and t2 submitted in that
order to a single-Worker Room queue (with arbitrary other tasks around them),
the sequence of execution starts is exactly the submission order, so t1 begins
executing before t2 does. -/
theorem worker_fifo_start {τ : Type} (doTask : τ → Except Err τ)
    (pre mid post : List τ) (t1 t2 : τ) :
    ThreadUnit.startTrace doTask (pre ++ t1 :: mid ++ t2 :: post) =
      pre ++ t1 :: mid ++ t2 :: post :=
  ThreadUnit.startTrace_eq doTask (pre ++ t1 :: mid ++ t2 :: post)

/-- C5: the Worker loop never terminates because of a task: every iteration
ends in nextIteration whatever task.do() did (the except handler swallows any
escaping error), and every task in the queue still has its execution begun,
even the ones after a misbehaving task. -/
theorem worker_never_dies {τ : Type} (doTask : τ → Except Err τ)
    (q : List τ) (t : τ) (h : t ∈ q) :
    (ThreadUnit.step doTask q).2.2 = LoopControl.nextIteration ∧
      LoopEvent.beganDo t ∈ ThreadUnit.run doTask q := by
  constructor
  · match q with
    | [] => rfl
    | t' :: rest =>
      unfold ThreadUnit.step ThreadUnit.tryBody
      cases hd : doTask t' <;> simp [hd]
  · rw [← ThreadUnit.startTrace_eq doTask q] at h
    unfold ThreadUnit.startTrace at h
    obtain ⟨e, he, hfe⟩ := List.mem_filterMap.mp h
    cases e <;> simp at hfe
    subst hfe
    exact he

/-- Witness for C5: a queue whose first task raises error 3; the step control
still says nextIteration and the second task is still begun. -/
theorem worker_never_dies_witness :
    (1 ∈ [0, 1]) ∧
      ((ThreadUnit.step (fun n => if n == 0 then Except.error 3 else Except.ok n)
          [0, 1]).2.2 = LoopControl.nextIteration ∧
        LoopEvent.beganDo 1 ∈
          ThreadUnit.run (fun n => if n == 0 then Except.error 3 else Except.ok n)
            [0, 1]) :=
  ⟨by decide,
    worker_never_dies (fun n => if n == 0 then Except.error 3 else Except.ok n)
      [0, 1] 1 (by decide)⟩

/-- C1: when the wrapped function returns v without raising, decorating it
with shoot, calling the wrapper and awaiting the returned Task handle yields
exactly v, for every room choice and every starting world. -/
theorem shoot_call_await_ok (room : Option String) (f : PyFunc) (a : List Val)
    (kw : KwArgs) (w : World) (v : Val) (h : f a kw = Except.ok v) :
    shootCallAwait room f a kw w = some (Except.ok v) := by
  simp [shootCallAwait, shoot, shootWrapper, Room.submit, Task.create,
    Task.run, Task.awaitResult, h]

/-- Witness for C1: a function that returns 5; awaiting the shoot-wrapped
call in the empty world yields 5. -/
theorem shoot_call_await_ok_witness :
    ((fun _ _ => Except.ok 5) : PyFunc) [] [] = Except.ok 5 ∧
      shootCallAwait none (fun _ _ => Except.ok 5) [] [] ⟨⟨[], 0⟩, 0⟩ =
        some (Except.ok 5) :=
  ⟨rfl, shoot_call_await_ok none (fun _ _ => Except.ok 5) [] [] ⟨⟨[], 0⟩, 0⟩ 5 rfl⟩

/-- C4: when the wrapped function raises e, awaiting the executed Task
re-raises e to the caller; task.do() returns normally to the Worker loop (the
error is captured, never thrown on the Worker thread); and the Worker goes on
to begin every subsequent task in its queue. -/
theorem worker_survives_task_error (f : PyFunc) (a : List Val) (kw : KwArgs)
    (e : Err) (rest : List Task) (h : f a kw = Except.error e) :
    ((Task.create f a kw).run).awaitResult = some (Except.error e) ∧
      Task.loopDo (Task.create f a kw) =
        Except.ok ((Task.create f a kw).run) ∧
      ThreadUnit.startTrace Task.loopDo (Task.create f a kw :: rest) =
        Task.create f a kw :: rest := by
  refine ⟨?_, rfl, ThreadUnit.startTrace_eq _ _⟩
  simp [Task.create, Task.run, Task.awaitResult, h]

/-- Witness for C4: a function that raises error 7; the awaited outcome is
error 7 and the worker loop sees a normal return from task.do(). -/
theorem worker_survives_task_error_witness :
    ((fun _ _ => Except.error 7) : PyFunc) [] [] = Except.error 7 ∧
      ((Task.create (fun _ _ => Except.error 7) [] []).run).awaitResult =
          some (Except.error 7) ∧
        Task.loopDo (Task.create (fun _ _ => Except.error 7) [] []) =
          Except.ok ((Task.create (fun _ _ => Except.error 7) [] []).run) ∧
        ThreadUnit.startTrace Task.loopDo
            [Task.create (fun _ _ => Except.error 7) [] []] =
          [Task.create (fun _ _ => Except.error 7) [] []] :=
  ⟨rfl, worker_survives_task_error (fun _ _ => Except.error 7) [] [] 7 [] rfl⟩

/-- Helper: a name absent from the registry association list has no entry
counted for it. -/
theorem countP_eq_zero_of_lookup_none (n : String)
    (l : List (String × Room)) (h : l.lookup n = none) :
    l.countP (fun p => p.1 == n) = 0 := by
  induction l with
  | nil => rfl
  | cons p rest ih =>
    rw [List.lookup] at h
    cases hb : n == p.1 with
    | true => rw [hb] at h; exact absurd h (by simp)
    | false =>
      rw [hb] at h
      rw [List.countP_cons]
      have h1 : n ≠ p.1 := beq_eq_false_iff_ne.mp hb
      have h2 : (p.1 == n) = false :=
        beq_eq_false_iff_ne.mpr (fun he => h1 he.symm)
      simp [h2, ih h]

/-- C7: resolving the same name twice yields the identical Room instance (the
second resolution returns exactly what the first created or found), and for a
fresh name two successive first-accesses (the atomic interleaving of two
concurrent callers) leave exactly one registered Room under that name. -/
theorem room_name_single_creation (k : RoomKeeper) (n : String) :
    ((k.getRoom n).1.getRoom n).2 = (k.getRoom n).2 ∧
      (k.rooms.lookup n = none →
        ((k.getRoom n).1.getRoom n).1.rooms.countP (fun p => p.1 == n) = 1) := by
  cases hl : k.rooms.lookup n with
  | some r =>
    exact ⟨by simp [RoomKeeper.getRoom, hl], fun hc => Option.noConfusion hc⟩
  | none =>
    have hcons : (((n, { rid := k.nextRid, name := n, queue := [] }) ::
        k.rooms).lookup n) =
        some { rid := k.nextRid, name := n, queue := [] } := by
      rw [List.lookup]
      simp
    constructor
    · simp [RoomKeeper.getRoom, hl, hcons]
    · intro _
      simp only [RoomKeeper.getRoom, hl, hcons]
      rw [List.countP_cons]
      simp [countP_eq_zero_of_lookup_none n k.rooms hl]

/-- Witness for C7: in the empty registry, accessing the fresh name a twice
returns the same Room and leaves exactly one entry named a. -/
theorem room_name_single_creation_witness :
    (([] : List (String × Room)).lookup "a" = none) ∧
      (((RoomKeeper.mk [] 0).getRoom "a").1.getRoom "a").2 =
        ((RoomKeeper.mk [] 0).getRoom "a").2 ∧
      (((RoomKeeper.mk [] 0).getRoom "a").1.getRoom "a").1.rooms.countP
        (fun p => p.1 == "a") = 1 :=
  ⟨rfl, (room_name_single_creation (RoomKeeper.mk [] 0) "a").1,
    (room_name_single_creation (RoomKeeper.mk [] 0) "a").2 rfl⟩

/-- C8: every read of a completed Task (produced by running a freshly created
Task) yields one and the same outcome, the outcome of the wrapped call: the
result on normal return, the captured failure on a raise. Reading any number
of times never changes what is read. -/
theorem task_outcome_idempotent (f : PyFunc) (a : List Val) (kw : KwArgs)
    (n : Nat) (o : Option (Except Err Val))
    (h : o ∈ ((Task.create f a kw).run).reads n) :
    o = some (f a kw) := by
  induction n with
  | zero => simp [Task.reads] at h
  | succ m ih =>
    rw [Task.reads] at h
    rcases List.mem_cons.mp h with h1 | h2
    · subst h1
      cases hf : f a kw <;>
        simp [Task.create, Task.run, Task.awaitResult, hf]
    · exact ih h2

/-- Witness for C8: a task returning 5, read twice; each read is the same
outcome ok 5. -/
theorem task_outcome_idempotent_witness :
    (some (Except.ok 5) ∈
        ((Task.create (fun _ _ => Except.ok 5) [] []).run).reads 2) ∧
      some (Except.ok 5) =
        some (((fun _ _ => Except.ok 5) : PyFunc) [] []) :=
  ⟨List.Mem.head _,
    task_outcome_idempotent (fun _ _ => Except.ok 5) [] [] 2
      (some (Except.ok 5)) (List.Mem.head _)⟩

end Awaits
